import Mathlib

/-!
# Sentinel campaign dispatch / delivery-tracking pipeline: shallow embedding

This file embeds the core of the Sentinel email-campaign pipeline
(`src/services/...`) in Lean 4 and proves/refutes the specification claims
about it.  Python dict payloads become structures, enum classes become
inductives with their `.value` string, fallible calls become `Except`,
appended database rows are returned explicitly, and nondeterministic inputs
(uuid, clock, the md5 implementation from `hashlib`) are passed as
parameters.
-/

set_option autoImplicit false

namespace Sentinel

/-- Python string slicing `s[:n]` on a text string (`hexdigest()[:n]` etc.). -/
def pySlice (s : String) (n : Nat) : String :=
  String.mk (s.toList.take n)

/-! ## Enums from `src/services/common.py` -/

/-- `class EventType(Enum)` in `common.py`. -/
inductive EventType where
  | delivered | open | click | bounce | unsubscribe | spam | unknown | sent
  deriving DecidableEq

/-- The `.value` string of each `EventType` member. -/
def EventType.value : EventType → String
  | .delivered => "delivered"
  | .open => "open"
  | .click => "click"
  | .bounce => "bounce"
  | .unsubscribe => "unsubscribe"
  | .spam => "spam"
  | .unknown => "unknown"
  | .sent => "sent"

/-- `class DeliveryStatus(Enum)` in `common.py`. -/
inductive DeliveryStatus where
  | sent | failed | queued | processing
  deriving DecidableEq

/-- The `.value` string of each `DeliveryStatus` member. -/
def DeliveryStatus.value : DeliveryStatus → String
  | .sent => "sent"
  | .failed => "failed"
  | .queued => "queued"
  | .processing => "processing"

/-- `class CampaignState(Enum)` in `common.py`. -/
inductive CampaignState where
  | scheduled | pending | sending | done | failed
  deriving DecidableEq

/-- The `.value` string of each `CampaignState` member. -/
def CampaignState.value : CampaignState → String
  | .scheduled => "SC"
  | .pending => "P"
  | .sending => "SE"
  | .done => "D"
  | .failed => "F"

/-! ## Error model and retry utilities (`src/services/common.py`) -/

/-- The `.response` payload of a botocore `ClientError`: the fields
`is_retryable_error` reads (`response['Error']['Code']` and
`response['ResponseMetadata']['HTTPStatusCode']`, the latter defaulting
to `0` when absent). -/
structure AwsResponse where
  errorCode : String
  httpStatus : Nat
  deriving DecidableEq

/-- A Python exception as observed by `is_retryable_error`: an optional
`.code` attribute (urllib `HTTPError`) and an optional `.response`
attribute (botocore `ClientError`).  A plain exception has neither. -/
structure PyError where
  code : Option Nat
  response : Option AwsResponse
  deriving DecidableEq

/-- `RETRYABLE_ERROR_CODES` in `common.py`. -/
def RETRYABLE_ERROR_CODES : List String :=
  ["Throttling", "ThrottlingException", "RequestLimitExceeded",
   "ServiceUnavailable", "RequestTimeout", "InternalServerError",
   "InternalError", "ProvisionedThroughputExceededException",
   "TooManyRequestsException"]

/-- `PERMANENT_ERROR_CODES` in `common.py`. -/
def PERMANENT_ERROR_CODES : List String :=
  ["InvalidParameterValue", "ValidationError", "AccessDenied",
   "UnauthorizedOperation", "InvalidClientTokenId", "MessageRejected",
   "MailFromDomainNotVerified"]

/-- `is_retryable_error(error)` in `common.py`: urllib errors retry on 429/5xx;
AWS client errors consult the permanent then the retryable code sets, then the
HTTP status; anything unrecognized defaults to retryable. -/
def is_retryable_error (e : PyError) : Bool :=
  match e.code with
  | some status => status == 429 || status ≥ 500
  | none =>
    match e.response with
    | some r =>
      if PERMANENT_ERROR_CODES.contains r.errorCode then false
      else if RETRYABLE_ERROR_CODES.contains r.errorCode then true
      else r.httpStatus ≥ 500 || r.httpStatus == 429
    | none => true

/-- The attempt loop of `exponential_backoff_retry` in `common.py`.
`func` maps the attempt index to that call's outcome; `left` is the number
of attempts still allowed after the current one (the loop runs
`attempt = 0 .. max_retries`, so `left = max_retries - attempt`; the guard
`attempt >= max_retries` is `left = 0`).  Sleeping/jitter only delays, so
it is dropped.  Returns the final outcome and the number of calls made. -/
def retryGo {α : Type} (func : Nat → Except PyError α) (attempt : Nat) :
    Nat → Except PyError α × Nat
  | 0 =>
    match func attempt with
    | .ok v => (.ok v, 1)
    | .error e => (.error e, 1)
  | left + 1 =>
    match func attempt with
    | .ok v => (.ok v, 1)
    | .error e =>
      if is_retryable_error e then
        let r := retryGo func (attempt + 1) left
        (r.1, r.2 + 1)
      else (.error e, 1)

/-- `exponential_backoff_retry(func, max_retries, ...)` in `common.py`,
observed as (final outcome, number of transport calls). -/
def exponential_backoff_retry {α : Type} (func : Nat → Except PyError α)
    (max_retries : Nat) : Except PyError α × Nat :=
  retryGo func 0 max_retries

/-! ## Event store rows -/

/-- A row of the events table (`DYNAMODB_EVENTS_TABLE`), as written by
`update_email_status_in_events` (send worker) and `record_tracking_event`
(tracking API).  `raw` holds the JSON-encoded metadata; for SENT events this
is `{'status': status}`, modelled by keeping the status string itself. -/
structure EventRecord where
  id : String
  campaign_id : String
  recipient_id : String
  email : String
  type : String
  created_at : Nat
  rawStatus : String
  deriving DecidableEq

/-! ## Delivery worker (`src/services/send_worker/handler.py`) -/

/-- `update_email_status_in_events(campaign_id, email, status)`: the event
row it `put_item`s.  `md5hex` is `hashlib.md5(...).hexdigest()`, `uuid` the
fresh `uuid.uuid4()` string and `now` the clock. -/
def update_email_status_in_events (md5hex : String → String)
    (campaign_id email status : String) (uuid : String) (now : Nat) :
    EventRecord :=
  { id := uuid
    campaign_id := campaign_id
    recipient_id := pySlice (md5hex email) 8
    email := email
    type := EventType.sent.value
    created_at := now
    rawStatus := status }

/-- One record iteration of the send worker's `lambda_handler`, observed as
the events it appends: the `try` block (tracking injection plus the retried
transport call) either returns normally or raises; either way `status` is
set (`sent` on success, `failed` in the `except` arm) and
`update_email_status_in_events` runs exactly once afterwards. -/
def sendWorkerProcessRecord (md5hex : String → String)
    (campaign_id email : String) (tryOutcome : Except PyError String)
    (uuid : String) (now : Nat) : List EventRecord :=
  let status :=
    match tryOutcome with
    | .ok _ => DeliveryStatus.sent.value
    | .error _ => DeliveryStatus.failed.value
  [update_email_status_in_events md5hex campaign_id email status uuid now]

/-! ## Tracking links (`src/services/send_worker/tracking.py`) -/

/-- A row of the link-mappings table (`DYNAMODB_LINK_MAPPINGS_TABLE`), as
written by `store_link_mapping`. -/
structure LinkMapping where
  tracking_id : String
  campaign_id : String
  recipient_id : String
  email : String
  link_id : String
  original_url : String
  created_at : Nat
  expires_at : Nat
  deriving DecidableEq

/-- `create_cta_tracking_link(...)` in `tracking.py`: builds the tracking
redirect URL `{base_url}/track/click/{tracking_id}` and stores the mapping
row via `store_link_mapping` (TTL 90 days).  `tracking_id` stands for the
fresh `uuid.uuid4()` string.  Returns (tracking URL, stored row). -/
def create_cta_tracking_link (campaign_id recipient_id cta_id original_url
    email base_url tracking_id : String) (now : Nat) :
    String × LinkMapping :=
  let tracking_url := base_url ++ "/track/click/" ++ tracking_id
  (tracking_url,
   { tracking_id := tracking_id
     campaign_id := campaign_id
     recipient_id := recipient_id
     email := email
     link_id := cta_id
     original_url := original_url
     created_at := now
     expires_at := now + 90 * 24 * 60 * 60 })

/-! ## Tracking API (`src/services/tracking_api/handler.py`) -/

/-- The observable parts of a Lambda proxy HTTP response. -/
structure HttpResponse where
  statusCode : Nat
  location : Option String
  contentType : Option String
  body : String
  deriving DecidableEq

/-- The link-mappings table as seen by the tracking API.  `put_item`
overwrites by key and `get_item` reads by key, so the store is the list of
writes with the latest write first and lookup is the first match. -/
def get_link_mapping (store : List LinkMapping) (tracking_id : String) :
    Option LinkMapping :=
  store.find? (fun m => m.tracking_id == tracking_id)

/-- A row appended by `record_tracking_event` (the fields the claims
observe; the free-form metadata JSON is omitted). -/
structure TrackEvent where
  campaign_id : String
  recipient_id : String
  email : String
  type : String
  deriving DecidableEq

/-- Python `str.strip('/')`: drop leading and trailing `/` characters. -/
def pyStripSlashes (s : String) : String :=
  String.mk (((s.toList.dropWhile (· == '/')).reverse.dropWhile
    (· == '/')).reverse)

/-- `path.strip('/').split('/')` as used by the route handlers. -/
def pathParts (path : String) : List String :=
  (pyStripSlashes path).splitOn "/"

/-- `query_params.get(key, default)`. -/
def queryGet (qp : List (String × String)) (key default : String) : String :=
  match qp.lookup key with
  | some v => v
  | none => default

/-- `handle_click_tracking(path, headers, query_params, tracking_id)`:
resolves the tracking id (path parameter, else path segment 3), looks up the
link mapping, and on a hit records a CLICK event and 302-redirects to the
stored `original_url`; on any miss (no id, empty id — Python falsiness — or
unknown id) 302-redirects to the `fallback` query parameter or the default
`https://thesentinel.site`.  Returns (response, events appended). -/
def handle_click_tracking (store : List LinkMapping) (path : String)
    (qp : List (String × String)) (tracking_id : Option String) :
    HttpResponse × List TrackEvent :=
  let tid : Option String :=
    match tracking_id with
    | some t => some t
    | none =>
      let parts := pathParts path
      if parts.length ≥ 3 then parts[2]? else none
  let fallback := queryGet qp "fallback" "https://thesentinel.site"
  match tid with
  | some t =>
    if t ≠ "" then
      match get_link_mapping store t with
      | some m =>
        ({ statusCode := 302, location := some m.original_url,
           contentType := none, body := "" },
         [{ campaign_id := m.campaign_id, recipient_id := m.recipient_id,
            email := m.email, type := EventType.click.value }])
      | none =>
        ({ statusCode := 302, location := some fallback,
           contentType := none, body := "" }, [])
    else
      ({ statusCode := 302, location := some fallback,
         contentType := none, body := "" }, [])
  | none =>
    ({ statusCode := 302, location := some fallback,
       contentType := none, body := "" }, [])

/-- The static unsubscribe confirmation page returned by
`handle_unsubscribe`. -/
def unsubscribePage : String :=
  "<!DOCTYPE html><html><head><title>Unsubscribe - Sentinel</title></head>" ++
  "<body><h1>Unsubscribe Successful</h1></body></html>"

/-- `handle_unsubscribe(path, headers, query_params)`: parses the token and
builds analytics metadata, but (per the `TODO` in the source) never calls
`record_tracking_event`; it always returns the 200 `text/html` confirmation
page.  Returns (response, events appended). -/
def handle_unsubscribe (path : String) (qp : List (String × String)) :
    HttpResponse × List TrackEvent :=
  let parts := pathParts path
  let _token : Option String := if parts.length ≥ 2 then parts[1]? else none
  let _ := qp
  ({ statusCode := 200, location := none, contentType := some "text/html",
     body := unsubscribePage }, [])

/-! ## Campaign dispatcher (`src/services/start_campaign/handler.py`) -/

/-- A resolved recipient dict `{'id': ..., 'email': ...}`. -/
structure Contact where
  id : String
  email : String
  deriving DecidableEq

/-- A row of the segments table: the fields the dispatcher reads
(`segment.get('status')`, `segment.get('emails', [])`). -/
structure Segment where
  id : String
  status : String
  emails : List String
  deriving DecidableEq

/-- Python truthiness of an optional string (`if not x` is taken for both
a missing key and an empty string). -/
def optTruthy (o : Option String) : Bool :=
  match o with
  | none => false
  | some s => s ≠ ""

/-- Set-union accumulation `all_emails.update(emails)` observed as a
duplicate-free list (Python set iteration order is arbitrary; the claims
only depend on membership and duplicate-freedom). -/
def setUpdate (acc : List String) (emails : List String) : List String :=
  emails.foldl (fun a e => if a.contains e then a else a ++ [e]) acc

/-- `fetch_all_emails_from_segments(active_only)`: unions the email lists of
all (active, when `active_only`) segments into a set and maps each email to
`{'id': md5(email)[:12], 'email': email}`. -/
def fetch_all_emails_from_segments (md5hex : String → String)
    (segments : List Segment) (active_only : Bool) : List Contact :=
  let all_emails := segments.foldl
    (fun acc seg =>
      if active_only && !(seg.status == "A") then acc
      else setUpdate acc seg.emails) []
  all_emails.map (fun e => { id := pySlice (md5hex e) 12, email := e })

/-- `fetch_segment_contacts(segment_id)` in `start_campaign/handler.py`:
raises `ValueError` on an empty id; resolves the two reserved
pseudo-segments via `fetch_all_emails_from_segments`; otherwise looks the
segment up and — when it is missing — returns the empty list (a warning is
printed, no error is raised).  A found segment's emails are returned
verbatim, each with id `md5(segment_id + ':' + email)[:12]`. -/
def fetch_segment_contacts (md5hex : String → String)
    (segments : List Segment) (segment_id : String) :
    Except String (List Contact) :=
  if segment_id = "" then .error "segment_id cannot be empty"
  else if segment_id = "all_active" then
    .ok (fetch_all_emails_from_segments md5hex segments true)
  else if segment_id = "all_contacts" then
    .ok (fetch_all_emails_from_segments md5hex segments false)
  else
    match segments.find? (fun s => s.id == segment_id) with
    | none => .ok []
    | some seg =>
      .ok (seg.emails.map (fun e =>
        { id := pySlice (md5hex (segment_id ++ ":" ++ e)) 12, email := e }))

/-- `create_individual_recipient(recipient_email)`: one synthetic recipient
with id `md5(email)[:8]`. -/
def create_individual_recipient (md5hex : String → String)
    (recipient_email : String) : List Contact :=
  [{ id := pySlice (md5hex recipient_email) 8, email := recipient_email }]

/-- The campaign-record fields the dispatch path reads. -/
structure Campaign where
  delivery_type : Option String
  recipient_email : Option String
  segment_id : Option String
  deriving DecidableEq

/-- `get_campaign_recipients(campaign)`: branches on
`campaign.get('delivery_type', 'SEG')` and raises `ValueError` for a
missing `recipient_email`/`segment_id` or an unknown delivery type. -/
def get_campaign_recipients (md5hex : String → String)
    (segments : List Segment) (campaign : Campaign) :
    Except String (List Contact) :=
  let dt := campaign.delivery_type.getD "SEG"
  if dt = "IND" then
    if optTruthy campaign.recipient_email then
      .ok (create_individual_recipient md5hex
        (campaign.recipient_email.getD ""))
    else .error "No recipient_email found for individual campaign"
  else if dt = "SEG" then
    if optTruthy campaign.segment_id then
      fetch_segment_contacts md5hex segments (campaign.segment_id.getD "")
    else .error "No segment_id found for segment campaign"
  else .error ("Unknown delivery_type: " ++ dt)

/-- `_chunks(lst, n)`: `for i in range(0, len(lst), n): yield lst[i:i+n]`.
The start indices `0, n, 2n, ...` are computed upfront
(`⌈len / n⌉` of them) and each yields the slice `lst[i:i+n]`.  Only ever
called with `n = 10` (Python's `range` would raise on `n = 0`; here the
index list is empty then). -/
def pyChunks {α : Type} (l : List α) (n : Nat) : List (List α) :=
  (List.range' 0 ((l.length + n - 1) / n) n).map
    (fun i => (l.drop i).take n)

/-- The standard-path fan-out loop
(`for batch in _chunks(contacts, 10): ... sqs.send_message_batch(...)`):
each `send_message_batch` may raise and nothing catches it, so the loop
stops at the first failing chunk and the exception propagates.  `enqueue`
maps the chunk index to that call's outcome.  Returns (number of chunks
whose enqueue was attempted, final outcome), starting at index `i`. -/
def fanOutFrom (enqueue : Nat → Except PyError Unit) :
    List (List Contact) → Nat → Nat × Except PyError Unit
  | [], _ => (0, .ok ())
  | _ :: rest, i =>
    match enqueue i with
    | .ok _ =>
      let r := fanOutFrom enqueue rest (i + 1)
      (r.1 + 1, r.2)
    | .error e => (1, .error e)

/-- The full fan-out over a chunk list, from chunk 0. -/
def fanOut (enqueue : Nat → Except PyError Unit)
    (chunks : List (List Contact)) : Nat × Except PyError Unit :=
  fanOutFrom enqueue chunks 0

/-- The caller-visible outcome of a completed dispatch: HTTP status, the
state written by `update_campaign_state` (if reached), the reported
`enqueued` count, and the error body (for 400s). -/
structure DispatchResult where
  statusCode : Nat
  newState : Option String
  enqueuedReported : Option Nat
  errorBody : Option String
  deriving DecidableEq

/-- The standard (non-A/B) path of `start_campaign.lambda_handler` after the
campaign record is fetched: resolve recipients (`ValueError` → state FAILED
and a 400), empty list → state DONE and a 200, otherwise fan out in chunks
of 10 and — only if every chunk enqueue succeeded — mark SENDING and report
`enqueued = len(contacts)`.  A chunk failure is an unhandled exception
(`.error`): no state is written and no response is produced. -/
def startCampaignStandard (md5hex : String → String)
    (segments : List Segment) (campaign : Campaign)
    (enqueue : Nat → Except PyError Unit) : Except PyError DispatchResult :=
  match get_campaign_recipients md5hex segments campaign with
  | .error msg =>
    .ok { statusCode := 400, newState := some CampaignState.failed.value,
          enqueuedReported := none, errorBody := some msg }
  | .ok contacts =>
    if contacts.isEmpty then
      .ok { statusCode := 200, newState := some CampaignState.done.value,
            enqueuedReported := none, errorBody := none }
    else
      match (fanOut enqueue (pyChunks contacts 10)).2 with
      | .error e => .error e
      | .ok _ =>
        .ok { statusCode := 200,
              newState := some CampaignState.sending.value,
              enqueuedReported := some contacts.length, errorBody := none }

/-! ## A/B decision (`src/services/ab_test_analyzer/handler.py`) -/

/-- An event row as read back by the analyzer: its `type` and the
variation id found in its metadata (`raw.get('variation_id')` or the
top-level field). -/
structure AbEvent where
  type : String
  variation_id : Option String
  deriving DecidableEq

/-- The `scores` dict `{"A": 0, "B": 0, "C": 0}`. -/
structure Scores where
  a : Nat
  b : Nat
  c : Nat
  deriving DecidableEq

/-- One iteration of the analyzer's event loop: an event with a truthy
`variation_id` that is one of the score keys adds 1 for an `open` and 2
for a `click` to that variation's score. -/
def scoreStep (s : Scores) (e : AbEvent) : Scores :=
  match e.variation_id with
  | some v =>
    if v = "A" then
      if e.type = EventType.open.value then { s with a := s.a + 1 }
      else if e.type = EventType.click.value then { s with a := s.a + 2 }
      else s
    else if v = "B" then
      if e.type = EventType.open.value then { s with b := s.b + 1 }
      else if e.type = EventType.click.value then { s with b := s.b + 2 }
      else s
    else if v = "C" then
      if e.type = EventType.open.value then { s with c := s.c + 1 }
      else if e.type = EventType.click.value then { s with c := s.c + 2 }
      else s
    else s
  | none => s

/-- The analyzer's scoring pass over all campaign events. -/
def scoreEvents (events : List AbEvent) : Scores :=
  events.foldl scoreStep { a := 0, b := 0, c := 0 }

/-- `max(scores, key=scores.get)`: Python's `max` walks the keys in dict
insertion order (`A`, `B`, `C`) and replaces the current best only on a
strictly greater value, so the first key attaining the maximum wins. -/
def maxScoreKey (s : Scores) : String :=
  let best1 : String × Nat := ("A", s.a)
  let best2 : String × Nat := if s.b > best1.2 then ("B", s.b) else best1
  let best3 : String × Nat := if s.c > best2.2 then ("C", s.c) else best2
  best3.1

/-- Opens attributed to variation `v`: events whose metadata variation id
matches and whose type is `open`. -/
def opensFor (events : List AbEvent) (v : String) : Nat :=
  events.countP
    (fun e => e.variation_id == some v && e.type == EventType.open.value)

/-- Clicks attributed to variation `v`. -/
def clicksFor (events : List AbEvent) (v : String) : Nat :=
  events.countP
    (fun e => e.variation_id == some v && e.type == EventType.click.value)

/-! ## Shared helpers for the theorems -/

/-- A stand-in 32-hex-character digest function, used to instantiate the
`md5hex` parameter in closed witnesses (the claims never depend on the
md5 bit pattern, only on the digest being a 32-character hex string). -/
def hexConst : String → String :=
  fun _ => "0123456789abcdef0123456789abcdef"

/-- Length of a Python slice `s[:n]`. -/
theorem pySlice_length (s : String) (n : Nat) :
    (pySlice s n).length = min n s.length := by
  have h : (pySlice s n).length = (s.toList.take n).length := rfl
  rw [h, List.length_take]
  rfl

/-- The retry loop makes at most `left + 1` transport calls. -/
theorem retryGo_calls_le {α : Type} (func : Nat → Except PyError α) :
    ∀ (left attempt : Nat), (retryGo func attempt left).2 ≤ left + 1 := by
  intro left
  induction left with
  | zero =>
    intro attempt
    simp only [retryGo]
    cases func attempt <;> simp
  | succ n ih =>
    intro attempt
    simp only [retryGo]
    cases func attempt with
    | ok v => simp
    | error e =>
      by_cases hr : is_retryable_error e
      · simp only [hr, if_true]
        have := ih (attempt + 1)
        omega
      · simp [hr]

/-- A transport failing with the same error on every attempt exhausts the
loop: when the error is retryable, exactly `left + 1` calls are made and
the error is re-raised. -/
theorem retryGo_always_fails {α : Type} (func : Nat → Except PyError α)
    (e : PyError) (he : is_retryable_error e = true)
    (hf : ∀ i, func i = .error e) :
    ∀ (left attempt : Nat), retryGo func attempt left = (.error e, left + 1) := by
  intro left
  induction left with
  | zero => intro attempt; simp [retryGo, hf attempt]
  | succ n ih =>
    intro attempt
    simp only [retryGo, hf attempt, he, if_true]
    rw [ih (attempt + 1)]

/-! ## Claim C1 -/

/-- C1: every send-job execution of the Delivery Worker — whether the
`try` block (and its mail-transport call) returns or raises — appends
exactly one terminal event of type SENT, whose status is `sent` or
`failed`, and whose recipient key is `md5(email)[:8]`, a deterministic
function of the email alone, so two executions for the same email carry
the same recipient key. -/
theorem C1_sent_event_per_job (md5hex : String → String)
    (cid email uuid : String) (tryOutcome : Except PyError String)
    (now : Nat) :
    (sendWorkerProcessRecord md5hex cid email tryOutcome uuid now).length
      = 1 ∧
    (∀ ev ∈ sendWorkerProcessRecord md5hex cid email tryOutcome uuid now,
      ev.type = EventType.sent.value ∧
      (ev.rawStatus = DeliveryStatus.sent.value ∨
        ev.rawStatus = DeliveryStatus.failed.value) ∧
      ev.recipient_id = pySlice (md5hex email) 8) ∧
    (∀ (cid₂ uuid₂ : String) (tryOutcome₂ : Except PyError String)
        (now₂ : Nat),
      (sendWorkerProcessRecord md5hex cid₂ email tryOutcome₂ uuid₂
        now₂).map EventRecord.recipient_id =
      (sendWorkerProcessRecord md5hex cid email tryOutcome uuid
        now).map EventRecord.recipient_id) := by
  refine ⟨rfl, ?_, ?_⟩
  · intro ev hev
    cases tryOutcome <;>
      simp only [sendWorkerProcessRecord, List.mem_singleton] at hev <;>
      subst hev <;>
      exact ⟨rfl, by simp [update_email_status_in_events,
        DeliveryStatus.value], rfl⟩
  · intro cid₂ uuid₂ tryOutcome₂ now₂
    cases tryOutcome <;> cases tryOutcome₂ <;> rfl

/-- Closed instance of C1: one concrete successful run and one concrete
failing run for `a@x.com` each append a single SENT event with the same
recipient key `01234567`. -/
theorem C1_sent_event_per_job_witness :
    (sendWorkerProcessRecord hexConst "c1" "a@x.com" (.ok "mid") "u1"
      0).length = 1 ∧
    (update_email_status_in_events hexConst "c1" "a@x.com" "sent" "u1"
      0).type = EventType.sent.value ∧
    (sendWorkerProcessRecord hexConst "c2" "a@x.com"
      (.error ⟨none, none⟩) "u2" 5).map EventRecord.recipient_id =
    (sendWorkerProcessRecord hexConst "c1" "a@x.com" (.ok "mid") "u1"
      0).map EventRecord.recipient_id := by
  have h := C1_sent_event_per_job hexConst "c1" "a@x.com" "u1" (.ok "mid") 0
  refine ⟨h.1, ?_, h.2.2 "c2" "u2" (.error ⟨none, none⟩) 5⟩
  exact (h.2.1 (update_email_status_in_events hexConst "c1" "a@x.com"
    "sent" "u1" 0) (List.mem_singleton.mpr rfl)).1

/-! ## Claim C2 -/

/-- C2: the retry wrapper calls the transport at most `max_retries + 1`
times; a permanently-failing retryable error exhausts exactly
`max_retries + 1` calls; an error classified permanent is re-raised after
the first call with zero retries; every code in `PERMANENT_ERROR_CODES`
(MessageRejected, AccessDenied, ValidationError, ...) is classified
permanent regardless of HTTP status; and an unrecognized error (no `code`,
no `response`) is classified retryable by default. -/
theorem C2_retry_policy {α : Type} (func : Nat → Except PyError α)
    (max_retries : Nat) (e : PyError) :
    (exponential_backoff_retry func max_retries).2 ≤ max_retries + 1 ∧
    ((∀ i, func i = .error e) → is_retryable_error e = true →
      exponential_backoff_retry func max_retries =
        (.error e, max_retries + 1)) ∧
    (func 0 = .error e → is_retryable_error e = false →
      exponential_backoff_retry func max_retries = (.error e, 1)) ∧
    (∀ code ∈ PERMANENT_ERROR_CODES, ∀ st : Nat,
      is_retryable_error ⟨none, some ⟨code, st⟩⟩ = false) ∧
    is_retryable_error ⟨none, none⟩ = true := by
  refine ⟨retryGo_calls_le func max_retries 0, ?_, ?_, ?_, rfl⟩
  · intro hf he
    exact retryGo_always_fails func e he hf max_retries 0
  · intro h0 hperm
    cases max_retries with
    | zero => simp [exponential_backoff_retry, retryGo, h0]
    | succ n => simp [exponential_backoff_retry, retryGo, h0, hperm]
  · intro code hc st
    simp only [PERMANENT_ERROR_CODES, List.mem_cons,
      List.not_mem_nil, or_false] at hc
    rcases hc with rfl | rfl | rfl | rfl | rfl | rfl | rfl <;> rfl

/-- Closed instance of C2: a transport that always raises a retryable
error with `max_retries = 3` is called exactly 4 times; a `MessageRejected`
failure is re-raised after 1 call; the unrecognized error is retryable. -/
theorem C2_retry_policy_witness :
    (exponential_backoff_retry
      (fun _ => (.error ⟨none, none⟩ : Except PyError String)) 3).2 ≤ 4 ∧
    exponential_backoff_retry
      (fun _ => (.error ⟨none, none⟩ : Except PyError String)) 3 =
      (.error ⟨none, none⟩, 4) ∧
    exponential_backoff_retry
      (fun _ => (.error ⟨none, some ⟨"MessageRejected", 400⟩⟩ :
        Except PyError String)) 3 =
      (.error ⟨none, some ⟨"MessageRejected", 400⟩⟩, 1) ∧
    is_retryable_error ⟨none, none⟩ = true := by
  have h1 := C2_retry_policy
    (fun _ => (.error ⟨none, none⟩ : Except PyError String)) 3 ⟨none, none⟩
  have h2 := C2_retry_policy
    (fun _ => (.error ⟨none, some ⟨"MessageRejected", 400⟩⟩ :
      Except PyError String)) 3 ⟨none, some ⟨"MessageRejected", 400⟩⟩
  exact ⟨h1.1, h1.2.1 (fun _ => rfl) (by decide),
    h2.2.2.1 rfl (by decide), h1.2.2.2.2⟩

/-! ## Claim C3 -/

/-- C3: round-trip.  When the Delivery Worker mints a TrackingLink for a
CTA href (storing the original URL under a fresh non-empty `trackingId`
and rewriting the href to `{base}/track/click/{trackingId}`), a Click
request carrying that `trackingId` against a store containing that row
returns a 302 whose `Location` is the stored original destination URL,
byte-for-byte. -/
theorem C3_click_roundtrip (cid rid cta orig email base tid path : String)
    (now : Nat) (store : List LinkMapping) (qp : List (String × String))
    (htid : tid ≠ "") :
    (create_cta_tracking_link cid rid cta orig email base tid
      now).2.original_url = orig ∧
    (create_cta_tracking_link cid rid cta orig email base tid now).1 =
      base ++ "/track/click/" ++ tid ∧
    (handle_click_tracking
      ((create_cta_tracking_link cid rid cta orig email base tid
        now).2 :: store) path qp (some tid)).1 =
      { statusCode := 302, location := some orig, contentType := none,
        body := "" } := by
  refine ⟨rfl, rfl, ?_⟩
  simp [handle_click_tracking, get_link_mapping, create_cta_tracking_link,
    htid, List.find?_cons]

/-- Closed instance of C3: a concrete minted link for
`https://shop.example/sale?x=1&y=2` resolves back to exactly that URL. -/
theorem C3_click_roundtrip_witness :
    (handle_click_tracking
      [(create_cta_tracking_link "c1" "r1" "Buy (https://shop.example/sale?x=1&y=2)"
        "https://shop.example/sale?x=1&y=2" "a@x.com"
        "https://api.thesentinel.site" "t-123" 0).2] "/track/click/t-123"
      [] (some "t-123")).1 =
      { statusCode := 302, location := some "https://shop.example/sale?x=1&y=2",
        contentType := none, body := "" } :=
  (C3_click_roundtrip "c1" "r1" "Buy (https://shop.example/sale?x=1&y=2)"
    "https://shop.example/sale?x=1&y=2" "a@x.com"
    "https://api.thesentinel.site" "t-123" "/track/click/t-123" 0 [] []
    (by decide)).2.2

/-! ## Claim C8 -/

/-- C8: a Click request whose trackingId is unknown (no TrackingLink row
found), empty, or absent yields a 302 redirect to the fallback URL (the
`fallback` query parameter, defaulting to `https://thesentinel.site`);
moreover the click handler returns 302 on every input — never a 404, 500
or unhandled exception. -/
theorem C8_click_miss_fallback (store : List LinkMapping)
    (path : String) (qp : List (String × String)) (t : String)
    (hmiss : get_link_mapping store t = none) :
    (handle_click_tracking store path qp (some t)).1 =
      { statusCode := 302,
        location := some (queryGet qp "fallback" "https://thesentinel.site"),
        contentType := none, body := "" } ∧
    (∀ tracking_id : Option String,
      (handle_click_tracking store path qp tracking_id).1.statusCode
        = 302) := by
  constructor
  · by_cases ht : t = ""
    · subst ht; simp [handle_click_tracking]
    · simp [handle_click_tracking, ht, hmiss]
  · intro tracking_id
    simp only [handle_click_tracking]
    rcases tracking_id with _ | t'
    · rcases h : (if (pathParts path).length ≥ 3
        then (pathParts path)[2]? else none) with _ | t''
      · simp [h]
      · simp only [h]
        by_cases ht : t'' = ""
        · simp [ht]
        · simp only [ht, if_true, ne_eq, not_false_iff]
          rcases hm : get_link_mapping store t'' with _ | m <;> simp [hm, ht]
    · by_cases ht : t' = ""
      · simp [ht]
      · simp only [ht, if_true, ne_eq, not_false_iff]
        rcases hm : get_link_mapping store t' with _ | m <;> simp [hm, ht]

/-- Closed instance of C8: `GET /track/click/does-not-exist` against an
empty link store returns 302 to the default fallback
`https://thesentinel.site`. -/
theorem C8_click_miss_fallback_witness :
    (handle_click_tracking [] "/track/click/does-not-exist" []
      (some "does-not-exist")).1 =
      { statusCode := 302, location := some "https://thesentinel.site",
        contentType := none, body := "" } :=
  (C8_click_miss_fallback [] "/track/click/does-not-exist" []
    "does-not-exist" rfl).1

/-! ## Claim C5 -/

/-- C5 counterexample: a concrete `GET /unsubscribe/tok123` appends no
event at all to the Event Store — in particular no UNSUBSCRIBE event —
refuting the claim that the handler records an UNSUBSCRIBE event (it does
return 200). -/
theorem C5_counterexample :
    (handle_unsubscribe "/unsubscribe/tok123" []).2 = [] ∧
    ¬ (∃ ev ∈ (handle_unsubscribe "/unsubscribe/tok123" []).2,
        ev.type = EventType.unsubscribe.value) ∧
    (handle_unsubscribe "/unsubscribe/tok123" []).1.statusCode = 200 := by
  refine ⟨rfl, ?_, rfl⟩
  rintro ⟨ev, hev, -⟩
  simp [handle_unsubscribe] at hev

/-- C5 amended: every GET to the Unsubscribe route returns a 200
`text/html` confirmation page, but records no event in the Event Store
(the handler builds the metadata and discards it; `record_tracking_event`
is never called on this path). -/
theorem C5_unsubscribe_page_no_event (path : String)
    (qp : List (String × String)) :
    (handle_unsubscribe path qp).1.statusCode = 200 ∧
    (handle_unsubscribe path qp).1.contentType = some "text/html" ∧
    (handle_unsubscribe path qp).2 = [] :=
  ⟨rfl, rfl, rfl⟩

/-! ## Claim C4 -/

/-- C4 counterexample: resolving a SEGMENT campaign whose concrete segment
id `missing-segment` does not exist (and is not reserved) does **not**
fail — `fetch_segment_contacts` returns `.ok []` (no `InvalidSegment`
error exists anywhere in the code), and the dispatcher transitions the
campaign to DONE with a 200 zero-recipient response, not to FAILED. -/
theorem C4_counterexample :
    fetch_segment_contacts hexConst [] "missing-segment" = .ok [] ∧
    startCampaignStandard hexConst []
      { delivery_type := some "SEG", recipient_email := none,
        segment_id := some "missing-segment" } (fun _ => .ok ()) =
      .ok { statusCode := 200, newState := some CampaignState.done.value,
            enqueuedReported := none, errorBody := none } ∧
    CampaignState.done.value ≠ CampaignState.failed.value := by
  refine ⟨rfl, ?_, by decide⟩
  rfl

/-- C4 amended: a nonexistent concrete segment id (non-empty, not one of
the reserved pseudo-segments) resolves to the empty recipient list and the
campaign transitions to DONE with a 200 zero-recipient result; only a
missing/empty segment id raises a `ValueError`, which is surfaced
synchronously as a 400 and transitions the campaign to FAILED. -/
theorem C4_missing_segment_is_done (md5hex : String → String)
    (segments : List Segment) (sid : String)
    (h1 : sid ≠ "") (h2 : sid ≠ "all_active") (h3 : sid ≠ "all_contacts")
    (h4 : segments.find? (fun s => s.id == sid) = none)
    (re : Option String) (enqueue : Nat → Except PyError Unit) :
    fetch_segment_contacts md5hex segments sid = .ok [] ∧
    startCampaignStandard md5hex segments
      { delivery_type := some "SEG", recipient_email := re,
        segment_id := some sid } enqueue =
      .ok { statusCode := 200, newState := some CampaignState.done.value,
            enqueuedReported := none, errorBody := none } ∧
    startCampaignStandard md5hex segments
      { delivery_type := some "SEG", recipient_email := re,
        segment_id := none } enqueue =
      .ok { statusCode := 400,
            newState := some CampaignState.failed.value,
            enqueuedReported := none,
            errorBody := some "No segment_id found for segment campaign" }
      := by
  have hres : fetch_segment_contacts md5hex segments sid = .ok [] := by
    simp [fetch_segment_contacts, h1, h2, h3, h4]
  refine ⟨hres, ?_, ?_⟩
  · simp [startCampaignStandard, get_campaign_recipients, optTruthy, h1,
      hres]
  · simp [startCampaignStandard, get_campaign_recipients, optTruthy]

/-- Closed instance of the amended C4: concrete missing segment id against
a one-segment store resolves to DONE/200, and a missing segment id field
resolves to FAILED/400. -/
theorem C4_missing_segment_is_done_witness :
    fetch_segment_contacts hexConst [⟨"seg-a", "A", ["a@x.com"]⟩]
      "not-there" = .ok [] ∧
    startCampaignStandard hexConst [⟨"seg-a", "A", ["a@x.com"]⟩]
      { delivery_type := some "SEG", recipient_email := none,
        segment_id := some "not-there" } (fun _ => .ok ()) =
      .ok { statusCode := 200, newState := some CampaignState.done.value,
            enqueuedReported := none, errorBody := none } ∧
    startCampaignStandard hexConst [⟨"seg-a", "A", ["a@x.com"]⟩]
      { delivery_type := some "SEG", recipient_email := none,
        segment_id := none } (fun _ => .ok ()) =
      .ok { statusCode := 400,
            newState := some CampaignState.failed.value,
            enqueuedReported := none,
            errorBody := some "No segment_id found for segment campaign" }
      :=
  C4_missing_segment_is_done hexConst [⟨"seg-a", "A", ["a@x.com"]⟩]
    "not-there" (by decide) (by decide) (by decide) (by decide) none
    (fun _ => .ok ())

/-! ## Claim C6 -/

/-- The segment used in the C6 counterexample: stored with duplicated,
mixed-case, untrimmed emails (nothing in the resolver forbids this; the
list is whatever sits in the segments table). -/
def c6seg : Segment :=
  { id := "seg1", status := "A",
    emails := ["A@X.com", "A@X.com", " B@Y.com "] }

/-- What `fetch_segment_contacts` actually returns for `c6seg` (with the
`hexConst` digest): the stored emails verbatim. -/
def c6res : List Contact :=
  [{ id := "0123456789ab", email := "A@X.com" },
   { id := "0123456789ab", email := "A@X.com" },
   { id := "0123456789ab", email := " B@Y.com " }]

/-- C6 counterexample: resolving the concrete segment `seg1` returns the
stored email list verbatim — `A@X.com` appears twice (not deduplicated)
and the entries are neither lower-cased nor trimmed — refuting the claim
that segment resolution deduplicates and normalizes. -/
theorem C6_counterexample :
    fetch_segment_contacts hexConst [c6seg] "seg1" = .ok c6res ∧
    ¬ (c6res.map Contact.email).Nodup ∧
    (c6res.map Contact.email).contains "A@X.com" = true ∧
    ("A@X.com".toList.any Char.isUpper) = true ∧
    (c6res.map Contact.email).contains " B@Y.com " = true ∧
    " B@Y.com ".toList.head? = some ' ' := by
  refine ⟨rfl, by decide, by decide, by decide, by decide, by decide⟩

/-- `setUpdate` preserves duplicate-freedom of the accumulator. -/
theorem setUpdate_nodup (es : List String) :
    ∀ acc : List String, acc.Nodup → (setUpdate acc es).Nodup := by
  induction es with
  | nil => intro acc h; exact h
  | cons e es ih =>
    intro acc h
    show (setUpdate (if acc.contains e then acc else acc ++ [e]) es).Nodup
    by_cases hc : acc.contains e
    · rw [if_pos hc]; exact ih acc h
    · rw [if_neg hc]
      refine ih (acc ++ [e]) ?_
      rw [List.nodup_append]
      refine ⟨h, List.nodup_singleton e, ?_⟩
      intro x hx hx1
      rw [List.mem_singleton] at hx1
      subst hx1
      exact hc (by simpa using hx)

/-- The pseudo-segment union accumulator stays duplicate-free across all
segments. -/
theorem fetch_all_emails_nodup (md5hex : String → String)
    (segments : List Segment) (active_only : Bool) :
    ((fetch_all_emails_from_segments md5hex segments active_only).map
      Contact.email).Nodup := by
  have key : ∀ (segs : List Segment) (acc : List String), acc.Nodup →
      (segs.foldl (fun acc seg =>
        if active_only && !(seg.status == "A") then acc
        else setUpdate acc seg.emails) acc).Nodup := by
    intro segs
    induction segs with
    | nil => intro acc h; exact h
    | cons s ss ih =>
      intro acc h
      rw [List.foldl_cons]
      by_cases hs : (active_only && !(s.status == "A"))
      · rw [if_pos hs]; exact ih acc h
      · rw [if_neg hs]
        exact ih (setUpdate acc s.emails) (setUpdate_nodup s.emails acc h)
  have hall := key segments [] List.nodup_nil
  rw [fetch_all_emails_from_segments, List.map_map]
  have hcomp : (Contact.email ∘ fun e =>
      ({ id := pySlice (md5hex e) 12, email := e } : Contact)) = id := rfl
  rw [hcomp, List.map_id]
  exact hall

/-- C6 amended: segment resolution performs no normalization.  A found
concrete segment's stored email list is returned verbatim (duplicates,
casing and whitespace preserved); the reserved pseudo-segments return the
set-union of segment email lists — duplicate-free, but with the stored
casing/whitespace untouched.  (Lower-casing/trimming/dedup is done by the
segments API when a segment is written, not by the resolver.) -/
theorem C6_resolution_is_verbatim (md5hex : String → String)
    (segments : List Segment) (sid : String) (seg : Segment)
    (h1 : sid ≠ "") (h2 : sid ≠ "all_active") (h3 : sid ≠ "all_contacts")
    (h4 : segments.find? (fun s => s.id == sid) = some seg) :
    (fetch_segment_contacts md5hex segments sid).map
      (fun contacts => contacts.map Contact.email) = .ok seg.emails ∧
    ∀ active_only : Bool,
      ((fetch_all_emails_from_segments md5hex segments active_only).map
        Contact.email).Nodup := by
  constructor
  · rw [fetch_segment_contacts]
    rw [if_neg h1, if_neg h2, if_neg h3, h4]
    show Except.ok (List.map Contact.email (List.map _ seg.emails)) = _
    rw [List.map_map]
    have hcomp : (Contact.email ∘ fun e =>
        ({ id := pySlice (md5hex (sid ++ ":" ++ e)) 12, email := e } :
          Contact)) = id := rfl
    rw [hcomp, List.map_id]
  · intro active_only
    exact fetch_all_emails_nodup md5hex segments active_only

/-- Closed instance of the amended C6: the `c6seg` segment resolves to its
stored emails verbatim, and the pseudo-segment union over it is
duplicate-free. -/
theorem C6_resolution_is_verbatim_witness :
    (fetch_segment_contacts hexConst [c6seg] "seg1").map
      (fun contacts => contacts.map Contact.email) =
      .ok ["A@X.com", "A@X.com", " B@Y.com "] ∧
    ((fetch_all_emails_from_segments hexConst [c6seg] true).map
      Contact.email).Nodup := by
  have h := C6_resolution_is_verbatim hexConst [c6seg] "seg1" c6seg
    (by decide) (by decide) (by decide) (by decide)
  exact ⟨h.1, h.2 true⟩

/-! ## Claim C7 -/

/-- A run of leading successful chunk enqueues completes the whole list. -/
theorem fanOutFrom_all_ok (enqueue : Nat → Except PyError Unit) :
    ∀ (chunks : List (List Contact)) (i : Nat),
      (∀ j, j < chunks.length → enqueue (i + j) = .ok ()) →
      fanOutFrom enqueue chunks i = (chunks.length, .ok ()) := by
  intro chunks
  induction chunks with
  | nil => intro i _; rfl
  | cons c rest ih =>
    intro i h
    have h0 : enqueue i = .ok () := by simpa using h 0 (by simp)
    simp only [fanOutFrom, h0]
    rw [ih (i + 1) (fun j hj => by
      have := h (j + 1) (by simpa using Nat.succ_lt_succ hj)
      simpa [Nat.add_assoc, Nat.add_comm, Nat.add_left_comm] using this)]
    simp

/-- A failure at chunk `k` (after `k` successes) stops the loop: exactly
`k + 1` chunks are attempted and the error propagates. -/
theorem fanOutFrom_fails_at (enqueue : Nat → Except PyError Unit)
    (e : PyError) :
    ∀ (chunks : List (List Contact)) (k i : Nat),
      (∀ j, j < k → enqueue (i + j) = .ok ()) →
      enqueue (i + k) = .error e → k < chunks.length →
      fanOutFrom enqueue chunks i = (k + 1, .error e) := by
  intro chunks
  induction chunks with
  | nil => intro k i _ _ hk; simp at hk
  | cons c rest ih =>
    intro k i hok herr hk
    cases k with
    | zero =>
      simp only [Nat.add_zero] at herr
      simp [fanOutFrom, herr]
    | succ m =>
      have h0 : enqueue i = .ok () := by simpa using hok 0 (by omega)
      simp only [fanOutFrom, h0]
      rw [ih m (i + 1) (fun j hj => by
        have := hok (j + 1) (by omega)
        simpa [Nat.add_assoc, Nat.add_comm, Nat.add_left_comm] using this)
        (by simpa [Nat.add_assoc, Nat.add_comm, Nat.add_left_comm]
          using herr)
        (by simpa using Nat.lt_of_succ_lt_succ hk)]

/-- C7 amended: chunk enqueues are strictly sequential with no per-chunk
error handling — the first failing chunk raises, the remaining chunks are
never attempted, and the dispatcher produces no partial-success count (the
unhandled exception propagates, skipping both `update_campaign_state` and
the response); `enqueued = len(contacts)` is reported only when every
chunk enqueue succeeded. -/
theorem C7_chunk_failure_aborts_fanout
    (enqueue : Nat → Except PyError Unit) (chunks : List (List Contact))
    (k : Nat) (e : PyError) (md5hex : String → String)
    (segments : List Segment) (campaign : Campaign)
    (contacts : List Contact) :
    ((∀ j, j < k → enqueue j = .ok ()) → enqueue k = .error e →
      k < chunks.length → fanOut enqueue chunks = (k + 1, .error e)) ∧
    ((∀ j, j < chunks.length → enqueue j = .ok ()) →
      fanOut enqueue chunks = (chunks.length, .ok ())) ∧
    (get_campaign_recipients md5hex segments campaign = .ok contacts →
      contacts ≠ [] →
      (fanOut enqueue (pyChunks contacts 10)).2 = .error e →
      startCampaignStandard md5hex segments campaign enqueue =
        .error e) ∧
    (get_campaign_recipients md5hex segments campaign = .ok contacts →
      contacts ≠ [] →
      (fanOut enqueue (pyChunks contacts 10)).2 = .ok () →
      startCampaignStandard md5hex segments campaign enqueue =
        .ok { statusCode := 200,
              newState := some CampaignState.sending.value,
              enqueuedReported := some contacts.length,
              errorBody := none }) := by
  refine ⟨?_, ?_, ?_, ?_⟩
  · intro hok herr hk
    exact fanOutFrom_fails_at enqueue e chunks k 0
      (fun j hj => by simpa using hok j hj) (by simpa using herr) hk
  · intro hok
    exact fanOutFrom_all_ok enqueue chunks 0
      (fun j hj => by simpa using hok j hj)
  · intro hres hne hfail
    simp only [startCampaignStandard, hres]
    rw [if_neg (by simpa [List.isEmpty_iff] using hne)]
    rw [hfail]
  · intro hres hne hokall
    simp only [startCampaignStandard, hres]
    rw [if_neg (by simpa [List.isEmpty_iff] using hne)]
    rw [hokall]

/-- The 12-recipient segment used in the C7 counterexample (two chunks of
10 and 2). -/
def c7seg : Segment :=
  { id := "s7", status := "A",
    emails := ["e0@x.com", "e1@x.com", "e2@x.com", "e3@x.com", "e4@x.com",
      "e5@x.com", "e6@x.com", "e7@x.com", "e8@x.com", "e9@x.com",
      "e10@x.com", "e11@x.com"] }

/-- An enqueue behaviour whose first `send_message_batch` raises while all
later chunks would succeed. -/
def c7enqueue : Nat → Except PyError Unit :=
  fun i => if i = 0 then .error { code := none, response := none }
    else .ok ()

/-- The contacts `fetch_segment_contacts` resolves for `c7seg` under
`hexConst`. -/
def c7contacts : List Contact :=
  c7seg.emails.map (fun e =>
    { id := pySlice (hexConst ("s7:" ++ e)) 12, email := e })

/-- C7 counterexample: dispatching the 12-recipient segment campaign
produces 2 chunks; the first chunk's enqueue fails while the second would
have succeeded, yet only 1 chunk is attempted (the failure prevents the
remaining chunk) and the dispatch raises the error unhandled instead of
reporting a partial-success enqueued count. -/
theorem C7_counterexample :
    get_campaign_recipients hexConst [c7seg]
      { delivery_type := some "SEG", recipient_email := none,
        segment_id := some "s7" } = .ok c7contacts ∧
    (pyChunks c7contacts 10).length = 2 ∧
    c7enqueue 1 = .ok () ∧
    fanOut c7enqueue (pyChunks c7contacts 10) =
      (1, .error { code := none, response := none }) ∧
    startCampaignStandard hexConst [c7seg]
      { delivery_type := some "SEG", recipient_email := none,
        segment_id := some "s7" } c7enqueue =
      .error { code := none, response := none } := by
  exact ⟨rfl, rfl, rfl, rfl, rfl⟩

/-- Closed instance of the amended C7: with the first chunk enqueue
failing, exactly one of the two chunks is attempted and the dispatcher
propagates the unhandled error. -/
theorem C7_chunk_failure_aborts_fanout_witness :
    fanOut c7enqueue (pyChunks c7contacts 10) =
      (1, .error { code := none, response := none }) ∧
    startCampaignStandard hexConst [c7seg]
      { delivery_type := some "SEG", recipient_email := none,
        segment_id := some "s7" } c7enqueue =
      .error { code := none, response := none } := by
  have h := C7_chunk_failure_aborts_fanout c7enqueue
    (pyChunks c7contacts 10) 0 { code := none, response := none }
    hexConst [c7seg]
    { delivery_type := some "SEG", recipient_email := none,
      segment_id := some "s7" } c7contacts
  refine ⟨h.1 (fun j hj => absurd hj (by omega)) rfl (by decide), ?_⟩
  exact h.2.2.1 rfl (by decide)
    (h.1 (fun j hj => absurd hj (by omega)) rfl (by decide) ▸ rfl)

/-! ## Claim C9 -/

/-- One scoring step adds `1` to variation A's score for a matching open
and `2` for a matching click. -/
theorem scoreStep_a (s : Scores) (e : AbEvent) :
    (scoreStep s e).a = s.a +
      (if e.variation_id == some "A" && e.type == EventType.open.value
        then 1 else 0) +
      2 * (if e.variation_id == some "A" && e.type == EventType.click.value
        then 1 else 0) := by
  rcases e with ⟨t, vid⟩
  rcases vid with _ | v
  · simp [scoreStep]
  · simp only [scoreStep]
    split_ifs <;> simp_all [EventType.value]

/-- One scoring step for variation B. -/
theorem scoreStep_b (s : Scores) (e : AbEvent) :
    (scoreStep s e).b = s.b +
      (if e.variation_id == some "B" && e.type == EventType.open.value
        then 1 else 0) +
      2 * (if e.variation_id == some "B" && e.type == EventType.click.value
        then 1 else 0) := by
  rcases e with ⟨t, vid⟩
  rcases vid with _ | v
  · simp [scoreStep]
  · simp only [scoreStep]
    split_ifs <;> simp_all [EventType.value]

/-- One scoring step for variation C. -/
theorem scoreStep_c (s : Scores) (e : AbEvent) :
    (scoreStep s e).c = s.c +
      (if e.variation_id == some "C" && e.type == EventType.open.value
        then 1 else 0) +
      2 * (if e.variation_id == some "C" && e.type == EventType.click.value
        then 1 else 0) := by
  rcases e with ⟨t, vid⟩
  rcases vid with _ | v
  · simp [scoreStep]
  · simp only [scoreStep]
    split_ifs <;> simp_all [EventType.value]

/-- The scoring fold computes `opens + 2 * clicks` per variation, counting
only events whose variation id matches. -/
theorem scoreEvents_eq_formula (events : List AbEvent) :
    ∀ s : Scores,
      (events.foldl scoreStep s).a =
        s.a + opensFor events "A" + 2 * clicksFor events "A" ∧
      (events.foldl scoreStep s).b =
        s.b + opensFor events "B" + 2 * clicksFor events "B" ∧
      (events.foldl scoreStep s).c =
        s.c + opensFor events "C" + 2 * clicksFor events "C" := by
  induction events with
  | nil => intro s; simp [opensFor, clicksFor]
  | cons e es ih =>
    intro s
    rw [List.foldl_cons]
    obtain ⟨ha, hb, hc⟩ := ih (scoreStep s e)
    rw [ha, hb, hc, scoreStep_a, scoreStep_b, scoreStep_c]
    simp only [opensFor, clicksFor, List.countP_cons]
    refine ⟨by omega, by omega, by omega⟩

/-- The events of the claim's concrete example: variation A gets 3 opens
and 1 click, B gets 1 open and 3 clicks, C gets no events. -/
def c9events : List AbEvent :=
  [{ type := "open", variation_id := some "A" },
   { type := "open", variation_id := some "A" },
   { type := "open", variation_id := some "A" },
   { type := "click", variation_id := some "A" },
   { type := "open", variation_id := some "B" },
   { type := "click", variation_id := some "B" },
   { type := "click", variation_id := some "B" },
   { type := "click", variation_id := some "B" }]

/-- C9: the analyzer scores each variation as `opens * 1 + clicks * 2`
counting only events whose variation id matches; `max(scores, key=...)`
returns the first key in A-B-C order attaining the maximum (so a strictly
highest score wins and ties break toward the earlier-defined variant); on
the example `{A: 3 opens 1 click, B: 1 open 3 clicks, C: none}` the scores
are `A=5, B=7, C=0` and the winner is `B`. -/
theorem C9_ab_scoring (events : List AbEvent) (s : Scores) :
    ((scoreEvents events).a =
      opensFor events "A" + 2 * clicksFor events "A") ∧
    ((scoreEvents events).b =
      opensFor events "B" + 2 * clicksFor events "B") ∧
    ((scoreEvents events).c =
      opensFor events "C" + 2 * clicksFor events "C") ∧
    (s.a = max (max s.a s.b) s.c → maxScoreKey s = "A") ∧
    (s.b = max (max s.a s.b) s.c → s.a < s.b → maxScoreKey s = "B") ∧
    (s.c = max (max s.a s.b) s.c → s.a < s.c → s.b < s.c →
      maxScoreKey s = "C") ∧
    scoreEvents c9events = { a := 5, b := 7, c := 0 } ∧
    maxScoreKey { a := 5, b := 7, c := 0 } = "B" := by
  obtain ⟨ha, hb, hc⟩ := scoreEvents_eq_formula events
    { a := 0, b := 0, c := 0 }
  refine ⟨by simpa [scoreEvents] using ha,
    by simpa [scoreEvents] using hb,
    by simpa [scoreEvents] using hc, ?_, ?_, ?_, by decide, by decide⟩
  · intro h
    simp only [maxScoreKey]
    split_ifs <;> first | rfl | (exfalso; omega)
  · intro h hab
    simp only [maxScoreKey]
    split_ifs <;> first | rfl | (exfalso; omega)
  · intro h hac hbc
    simp only [maxScoreKey]
    split_ifs with hba <;> rfl

/-- Closed instance of C9: the example's scores and winner, with the
tie-break implication discharged at `{5, 7, 0}`. -/
theorem C9_ab_scoring_witness :
    scoreEvents c9events = { a := 5, b := 7, c := 0 } ∧
    maxScoreKey { a := 5, b := 7, c := 0 } = "B" := by
  have h := C9_ab_scoring c9events { a := 5, b := 7, c := 0 }
  exact ⟨h.2.2.2.2.2.2.1, h.2.2.2.2.1 (by decide) (by decide)⟩

/-! ## Claim C10 -/

/-- C10: for any recipient resolved for a SEGMENT campaign, the id carried
in the send job (and thence in the open-pixel URL and TrackingLink rows) —
`md5(segment_id + ':' + email)[:12]` for a concrete segment,
`md5(email)[:12]` for the pseudo-segments — is never equal to the
recipient id the Delivery Worker later records in the SENT event
(`md5(email)[:8]`): a 12-character hex prefix cannot equal an 8-character
one, since an md5 hexdigest has 32 characters.  The same recipient's SENT
event and OPEN/CLICK events are therefore keyed by different ids. -/
theorem C10_sent_id_never_matches_job_id (md5hex : String → String)
    (hlen : ∀ s, (md5hex s).length = 32)
    (segments : List Segment) (segment_id : String)
    (contacts : List Contact)
    (hres : fetch_segment_contacts md5hex segments segment_id =
      .ok contacts) :
    ∀ c ∈ contacts, ∀ (cid status uuid : String) (now : Nat),
      (update_email_status_in_events md5hex cid c.email status uuid
        now).recipient_id ≠ c.id := by
  have hmap : ∀ (ao : Bool),
      fetch_all_emails_from_segments md5hex segments ao =
        (segments.foldl (fun acc seg =>
          if ao && !(seg.status == "A") then acc
          else setUpdate acc seg.emails) []).map
          (fun e => { id := pySlice (md5hex e) 12, email := e }) :=
    fun _ => rfl
  have hshape : ∀ c ∈ contacts, ∃ e, c.id = pySlice (md5hex e) 12 := by
    rw [fetch_segment_contacts] at hres
    split_ifs at hres with h1 h2 h3
    · cases hres
      intro c hc
      rw [hmap] at hc
      obtain ⟨e, -, rfl⟩ := List.mem_map.mp hc
      exact ⟨e, rfl⟩
    · cases hres
      intro c hc
      rw [hmap] at hc
      obtain ⟨e, -, rfl⟩ := List.mem_map.mp hc
      exact ⟨e, rfl⟩
    · generalize hfind : segments.find? (fun s => s.id == segment_id) = r
        at hres
      cases r with
      | none =>
        cases hres
        intro c hc
        cases hc
      | some seg =>
        cases hres
        intro c hc
        obtain ⟨e, -, rfl⟩ := List.mem_map.mp hc
        exact ⟨segment_id ++ ":" ++ e, rfl⟩
  intro c hc cid status uuid now heq
  obtain ⟨e, hce⟩ := hshape c hc
  have hid : c.id.length = 12 := by
    rw [hce, pySlice_length, hlen]
    omega
  have h8 : (update_email_status_in_events md5hex cid c.email status uuid
      now).recipient_id.length = 8 := by
    show (pySlice (md5hex c.email) 8).length = 8
    rw [pySlice_length, hlen]
    omega
  rw [heq, hid] at h8
  exact absurd h8 (by decide)

/-- Closed instance of C10: for a concrete one-recipient segment, the
SENT-event key `md5(email)[:8]` differs from the job id
`md5('s1:' + email)[:12]`. -/
theorem C10_sent_id_never_matches_job_id_witness :
    (update_email_status_in_events hexConst "c1" "a@x.com" "sent" "u1"
      0).recipient_id ≠ "0123456789ab" := by
  have h := C10_sent_id_never_matches_job_id hexConst (fun _ => rfl)
    [{ id := "s1", status := "A", emails := ["a@x.com"] }] "s1"
    [{ id := "0123456789ab", email := "a@x.com" }] rfl
  exact h { id := "0123456789ab", email := "a@x.com" }
    (List.mem_singleton.mpr rfl) "c1" "sent" "u1" 0

end Sentinel
